import Mathlib

/-!
# Verification of the tour_project failure-normalization layer and query translator

This file gives a shallow embedding, in Lean 4, of the two subsystems of the
tour_project repository that carry engineering content:

* the failure-normalization layer: the `AppError` class (`utils/appError.js`),
  the `catchAsync` combinator (`utils/catchAsync.js`), the global error
  responder (`controllers/errorController.js`, final code blocks in the
  repository notes) and the `uncaughtException` process listener
  (`server.js`, final version in the notes);
* the query translator `APIFeatures.filter` (`src/utils/apiFeatures.js`).

JavaScript objects are modelled as Lean records over the fields the code
reads; absent properties are `Option.none`; JavaScript truthiness (`x || d`,
`if (x)`) is modelled explicitly on each value shape.  Responses are records
of the fields actually passed to `res.status(..).json({..})`.
-/

namespace TourProject

/-! ## AppError (`utils/appError.js`)

```js
class AppError extends Error {
  constructor(message, statusCode) {
    super(message);
    this.statusCode = statusCode;
    this.status = `${statusCode}`.startsWith("4") ? "fail" : "error";
    this.isOperational = true;
    Error.captureStackTrace(this, this.constructor);
  }
}
```

The diagnostic trace is modelled as a list of frame names, innermost first.
`Error.captureStackTrace(this, this.constructor)` hides the construction
frame itself: starting from the raw stack (whose top frame is the
constructor), every leading frame belonging to the hidden function is
dropped, so the stored trace begins at the call site. -/

/-- One captured stack: frame names, innermost first. -/
abbrev Trace := List String

/-- `Error.captureStackTrace(target, hideFn)`: drop the leading frames that
belong to `hideFn`, so the stored trace starts at `hideFn`'s caller. -/
def captureStackTrace (raw : Trace) (hideFn : String) : Trace :=
  raw.dropWhile (fun f => f = hideFn)

/-- JS `s.startsWith(pre)`, stated on the character lists so that it
evaluates by kernel reduction. -/
def jsStartsWith (s pre : String) : Bool :=
  pre.toList.isPrefixOf s.toList

/-- The typed error of `utils/appError.js`. -/
structure AppError where
  message : String
  statusCode : Nat
  status : String
  isOperational : Bool
  stack : Trace
  deriving Repr, DecidableEq

/-- The `AppError` constructor.  `callerStack` is the stack of the caller at
construction time (innermost first); the raw stack at capture time is the
constructor frame `"AppError"` pushed onto it. -/
def mkAppError (message : String) (statusCode : Nat) (callerStack : Trace) : AppError :=
  { message := message
    statusCode := statusCode
    status := if jsStartsWith (toString statusCode) "4" then "fail" else "error"
    isOperational := true
    stack := captureStackTrace ("AppError" :: callerStack) "AppError" }

/-! ## JavaScript error values reaching the global responder

The responder reads these properties of an incoming error: `name`, `code`,
`errmsg`, `path`, `value`, `errors`, `message`, `statusCode`, `status`,
`isOperational`, `stack`.  Properties an error may lack are `Option`;
`message` and `stack` exist on every JS `Error`; `isOperational` is read
only for truthiness, so an absent property and `false` coincide. -/

/-- One sub-error of a Mongoose `ValidationError`s `errors` mapping; the
responder reads only its `message`. -/
structure ValidatorError where
  message : String
  deriving Repr, DecidableEq

/-- An error value as seen by the global error responder. -/
structure JsError where
  name : Option String
  code : Option Nat
  errmsg : Option String
  path : Option String
  value : Option String
  /-- Sub-errors, as enumerated by `Object.values(err.errors)`, in insertion order. -/
  errors : List ValidatorError
  message : String
  statusCode : Option Nat
  status : Option String
  isOperational : Bool
  stack : Trace
  deriving Repr, DecidableEq

/-- JS `x || d` on a possibly-absent number (`0` and absent are falsy). -/
def jsOrNat (v : Option Nat) (d : Nat) : Nat :=
  match v with
  | some n => if n = 0 then d else n
  | none => d

/-- JS `x || d` on a possibly-absent string (`""` and absent are falsy). -/
def jsOrStr (v : Option String) (d : String) : String :=
  match v with
  | some s => if s = "" then d else s
  | none => d

/-- Template interpolation of a possibly-absent JS string. -/
def jsStr (v : Option String) : String :=
  match v with
  | some s => s
  | none => "undefined"

/-- The two mutating lines at the top of the responder:
`err.statusCode = err.statusCode || 500; err.status = err.status || "error";` -/
def normalizeErr (e : JsError) : JsError :=
  { e with
    statusCode := some (jsOrNat e.statusCode 500)
    status := some (jsOrStr e.status "error") }

/-- An `AppError` viewed as a plain error value: `class AppError extends
Error` leaves `name` at the inherited `"Error"` and defines no `code`,
`errmsg`, `path`, `value` or `errors` properties. -/
def appErrorToJs (a : AppError) : JsError :=
  { name := some "Error"
    code := none
    errmsg := none
    path := none
    value := none
    errors := []
    message := a.message
    statusCode := some a.statusCode
    status := some a.status
    isOperational := a.isOperational
    stack := a.stack }

/-! ## The quoted-substring regex of `handleDuplicateFieldsDB`

The duplicate-fields handler extracts
`err.errmsg.match(/(["'])(\\?.)*?\1/)[0]`: the first (leftmost, and — the
repetition being lazy — shortest) substring delimited by a matching pair of
double or single quotes, where the repeated atom `\\?.` consumes either a
backslash followed by any character or a single character, and `.` never
matches a line terminator.  `matchQuotedFrom q cs` matches `(\\?.)*?\1`
against `cs` after an opening quote `q` has been consumed, returning the
consumed characters (closing quote included); lazy repetition tries the
backreference before each further iteration, and the greedy inner `\\?`
tries the two-character reading of a backslash before falling back to `.`
alone. -/

/-- Test for the line terminators that JS regex `.` refuses. -/
def isLineTerm (c : Char) : Bool :=
  c = '\n' ∨ c = '\r'

/-- Match `(\\?.)*?\1` (backreference `\1` bound to the quote `q`) against
the characters after the opening quote, returning the matched characters,
closing quote included; `none` when no match starts here. -/
def matchQuotedFrom (q : Char) : List Char → Option (List Char)
  | [] => none
  | [c] => if c = q then some [c] else none
  | c :: d :: rest =>
    if c = q then some [c]
    else if isLineTerm c then none
    else if c = '\\' && !isLineTerm d then
      match matchQuotedFrom q rest with
      | some t => some (c :: d :: t)
      | none =>
        match matchQuotedFrom q (d :: rest) with
        | some t => some (c :: t)
        | none => none
    else
      match matchQuotedFrom q (d :: rest) with
      | some t => some (c :: t)
      | none => none

/-- Leftmost match of `(["'])(\\?.)*?\1`: scan for the first position whose
character is a quote and from which the rest of the pattern matches. -/
def matchQuoted : List Char → Option (List Char)
  | [] => none
  | c :: rest =>
    if c = '"' ∨ c = '\'' then
      match matchQuotedFrom c rest with
      | some t => some (c :: t)
      | none => matchQuoted rest
    else matchQuoted rest

/-- String form of the leftmost quoted-substring match: the value of
`s.match(/(["'])(\\?.)*?\1/)[0]`, or `none` when `match` returns `null`
(in which case the subscript `[0]` throws). -/
def matchQuotedStr (s : String) : Option String :=
  (matchQuoted s.toList).map (fun cs => String.mk cs)

/-! ## The global error responder (`controllers/errorController.js`, final form)

```js
const handleCastErrorDB = (err) => {
  const message = `Invalid ${err.path}: ${err.value}.`;
  return new AppError(message, 400);
};

const handleDuplicateFieldsDB = (err) => {
  const value = err.errmsg.match(/(["'])(\\?.)*?\1/)[0];
  const message = `Duplicate field value: ${value}. Please use another value!`;
  return new AppError(message, 400);
};

const handleValidationErrorDB = (err) => {
  const errors = Object.values(err.errors).map((el) => el.message);
  const message = `Invalid input data. ${errors.join(". ")}`;
  return new AppError(message, 400);
};

module.exports = (err, req, res, next) => {
  err.statusCode = err.statusCode || 500;
  err.status = err.status || "error";
  if (process.env.NODE_ENV === "development") {
    sendErrorDev(err, res);
  } else if (process.env.NODE_ENV === "production") {
    let error = { ...err };
    if (error.name === "CastError") error = handleCastErrorDB(error);
    if (error.code === 11000) error = handleDuplicateFieldsDB(error);
    if (error.name === "ValidationError")
      error = handleValidationErrorDB(error);
    sendErrorProd(error, res);
  }
};
```

The duplicate-fields handler dereferences `match(..)[0]`, which throws a
`TypeError` when `errmsg` is absent or holds no quoted substring; its
result is therefore an `Option`, with `none` propagated by the responder as
a thrown exception. -/

/-- Translate a Mongoose `CastError` into an operational `AppError`. -/
def handleCastErrorDB (err : JsError) : AppError :=
  let message := "Invalid " ++ jsStr err.path ++ ": " ++ jsStr err.value ++ "."
  mkAppError message 400 ["handleCastErrorDB"]

/-- Translate a MongoDB duplicate-key (code 11000) error into an operational
`AppError`; `none` models the `TypeError` thrown by `match(..)[0]` when no
quoted substring exists (or `errmsg` is absent). -/
def handleDuplicateFieldsDB (err : JsError) : Option AppError :=
  match err.errmsg with
  | none => none
  | some msg =>
    match matchQuotedStr msg with
    | none => none
    | some value =>
      let message := "Duplicate field value: " ++ value ++ ". Please use another value!"
      some (mkAppError message 400 ["handleDuplicateFieldsDB"])

/-- Translate a Mongoose `ValidationError` into an operational `AppError`. -/
def handleValidationErrorDB (err : JsError) : AppError :=
  let errors := err.errors.map (fun el => el.message)
  let message := "Invalid input data. " ++ String.intercalate ". " errors
  mkAppError message 400 ["handleValidationErrorDB"]

/-- The fields the responder passes to `res.status(..).json({..})`.  The
`error` and `stack` fields are emitted only by the development branch. -/
structure Response where
  statusCode : Option Nat
  status : Option String
  message : Option String
  error : Option JsError
  stack : Option Trace
  deriving Repr, DecidableEq

/-- Development rendering: status code, status, message, the full error
object, and the diagnostic trace. -/
def sendErrorDev (err : JsError) : Response :=
  { statusCode := err.statusCode
    status := err.status
    message := some err.message
    error := some err
    stack := some err.stack }

/-- Production rendering: an operational error is sent as status code,
status and message only; anything else is logged and answered with the
fixed generic envelope. -/
def sendErrorProd (err : JsError) : Response :=
  if err.isOperational then
    { statusCode := err.statusCode
      status := err.status
      message := some err.message
      error := none
      stack := none }
  else
    { statusCode := some 500
      status := some "error"
      message := some "Something went very wrong!"
      error := none
      stack := none }

/-- The three translation steps of the production branch, applied to the
copy `let error = { ...err }`; `none` models the exception thrown inside
`handleDuplicateFieldsDB`. -/
def translateProd (err : JsError) : Option JsError :=
  let error := err
  let error := if error.name = some "CastError" then appErrorToJs (handleCastErrorDB error) else error
  match (if error.code = some 11000 then (handleDuplicateFieldsDB error).map appErrorToJs else some error) with
  | none => none
  | some error =>
    some (if error.name = some "ValidationError" then appErrorToJs (handleValidationErrorDB error) else error)

/-- What the responder did with the request. -/
inductive HandlerOutcome
  /-- A response was sent with these fields. -/
  | sent (r : Response)
  /-- The responder itself threw while translating. -/
  | threw
  /-- Neither environment branch ran: no response was sent. -/
  | noResponse
  deriving Repr, DecidableEq

/-- The exported global error handler.  The first component of the result is
the incoming error after the two normalizing mutations (visible to the
caller, since JS mutates the object in place); the second is what was sent. -/
def globalErrorHandler (e : JsError) (nodeEnv : String) : JsError × HandlerOutcome :=
  let err := normalizeErr e
  if nodeEnv = "development" then
    (err, .sent (sendErrorDev err))
  else if nodeEnv = "production" then
    match translateProd err with
    | none => (err, .threw)
    | some error => (err, .sent (sendErrorProd error))
  else
    (err, .noResponse)

/-! ## The async-capture combinator (`utils/catchAsync.js`)

```js
module.exports = (fn) => {
  return (req, res, next) => {
    fn(req, res, next).catch(next);
  };
};
```

A fallible handler is modelled as a function from the request to the trace
of the handler's own side effects paired with the settled state of the
promise it returns: fulfilled with a value, or rejected with an error.  The
wrapper's observable behaviour is the handler's effect trace (produced by
the single call `fn(req, res, next)`), the list of values forwarded to
`next` (in order), and the fulfilled value when there is one; the wrapped
handler itself never rejects, so the result type has no rejection case. -/

/-- The settled state of the promise a handler returns. -/
inductive Outcome (ε : Type) (α : Type)
  /-- The promise fulfilled with a value. -/
  | fulfilled (a : α)
  /-- The promise rejected with an error. -/
  | rejected (e : ε)
  deriving Repr, DecidableEq

/-- Observable behaviour of the wrapped handler on one invocation. -/
structure Wrapped (ε : Type) (α : Type) where
  /-- Side effects performed by the inner handler, in order. -/
  effects : List String
  /-- Errors forwarded to `next`, in order. -/
  nextCalls : List ε
  /-- The fulfilled value of the inner handler, when it succeeded. -/
  value : Option α
  deriving Repr, DecidableEq

/-- The combinator: call `fn` once and attach `.catch(next)` to the promise
it returns. -/
def catchAsync {ρ ε α : Type} (fn : ρ → List String × Outcome ε α) : ρ → Wrapped ε α :=
  fun req =>
    match fn req with
    | (effs, .fulfilled a) => { effects := effs, nextCalls := [], value := some a }
    | (effs, .rejected e) => { effects := effs, nextCalls := [e], value := none }

/-! ## The synchronous-defect listener (`server.js`, final form)

```js
process.on("uncaughtException", (err) => {
  console.log("UNCAUGHT EXCEPTION! 💥 Shutting down...");
  console.log(err.name, err.message);
  process.exit(1);
});
```
-/

/-- Actions a process-level crash listener can perform, in order. -/
inductive SupAction
  /-- Write a line to the console. -/
  | log (msg : String)
  /-- Stop accepting connections and run a callback after the drain. -/
  | serverClose
  /-- Terminate the process with this exit code. -/
  | exitProcess (code : Nat)
  deriving Repr, DecidableEq

/-- The `uncaughtException` listener.  `server` is the process-wide server
handle that may or may not exist when the listener fires; the listener's
body never consults it. -/
def uncaughtExceptionListener (errName errMessage : String) (server : Option Unit) : List SupAction :=
  let _ := server
  [ SupAction.log "UNCAUGHT EXCEPTION! 💥 Shutting down..."
  , SupAction.log (errName ++ " " ++ errMessage)
  , SupAction.exitProcess 1 ]

/-! ## The query translator's filter stage (`src/utils/apiFeatures.js`)

```js
filter() {
  const queryObj = { ...this.queryString };
  const excludedFields = ["page", "sort", "limit", "fields"];
  excludedFields.forEach((el) => delete queryObj[el]);
  const { price, minPrice, maxPrice, difficulty, duration,
          minDuration, maxDuration } = queryObj;
  const newQuery = {};
  if (difficulty) { newQuery.difficulty = difficulty; }
  if (duration) { newQuery.duration = duration; }
  if (minDuration && maxDuration) {
    newQuery.duration = { $gte: Number(minDuration), $lte: Number(maxDuration) };
  } else if (minDuration) { newQuery.duration = { $gte: Number(minDuration) }; }
  else if (maxDuration) { newQuery.duration = { $lte: Number(maxDuration) }; }
  if (price) { newQuery.price = price; }
  if (minPrice && maxPrice) {
    newQuery.price = { $gte: Number(minPrice), $lte: Number(maxPrice) };
  } else if (minPrice) { newQuery.price = { $gte: Number(minPrice) }; }
  else if (maxPrice) { newQuery.price = { $lte: Number(maxPrice) }; }
  this.queryFind = this.queryFind.find(newQuery);
  return this;
}
```

Query-string values are strings; `if (x)` is truthiness (present and
nonempty).  `Number(s)` is modelled for the unsigned decimal integers the
filter receives, with every other shape collapsing to NaN; the claims under
verification evaluate it on decimal integers only. -/

/-- Truthiness of a possibly-absent query-string value. -/
def truthy (v : Option String) : Bool :=
  match v with
  | some s => s ≠ ""
  | none => false

/-- A JS number as stored in a filter range bound. -/
inductive JsNum
  /-- Not a number. -/
  | nan
  /-- An integer value. -/
  | num (n : Int)
  deriving Repr, DecidableEq

/-- JS `Number(s)` restricted to unsigned decimal integer strings; any
other shape yields NaN.  The numeric value is computed by a structural fold
over the digits so that it evaluates by kernel reduction. -/
def jsNumber (s : String) : JsNum :=
  if s ≠ "" && s.toList.all (fun c => c.isDigit) then
    JsNum.num (s.toList.foldl (fun acc c => acc * 10 + Int.ofNat (c.toNat - '0'.toNat)) 0)
  else
    JsNum.nan

/-- One field's entry in the emitted filter object. -/
inductive FilterVal
  /-- An exact-match value, the raw query string. -/
  | exact (v : String)
  /-- A range: `$gte` and/or `$lte` bounds, each present or absent. -/
  | range (gte lte : Option JsNum)
  deriving Repr, DecidableEq

/-- The raw query-string mapping, restricted to the keys the filter stage
reads or deletes. -/
structure QueryString where
  page : Option String := none
  sort : Option String := none
  limit : Option String := none
  fields : Option String := none
  price : Option String := none
  minPrice : Option String := none
  maxPrice : Option String := none
  difficulty : Option String := none
  duration : Option String := none
  minDuration : Option String := none
  maxDuration : Option String := none
  deriving Repr, DecidableEq

/-- The `newQuery` object emitted by the filter stage. -/
structure Filter where
  difficulty : Option FilterVal := none
  duration : Option FilterVal := none
  price : Option FilterVal := none
  deriving Repr, DecidableEq

/-- The body of `APIFeatures.filter`, as the function from the raw query
string to the emitted filter object.  Deleting the reserved keys is
immaterial here because `newQuery` is built only from the seven
destructured fields. -/
def filterStage (qs : QueryString) : Filter :=
  let nq : Filter := {}
  let nq := if truthy qs.difficulty then { nq with difficulty := some (.exact (jsStr qs.difficulty)) } else nq
  let nq := if truthy qs.duration then { nq with duration := some (.exact (jsStr qs.duration)) } else nq
  let nq :=
    if truthy qs.minDuration && truthy qs.maxDuration then
      { nq with duration := some (.range (some (jsNumber (jsStr qs.minDuration))) (some (jsNumber (jsStr qs.maxDuration)))) }
    else if truthy qs.minDuration then
      { nq with duration := some (.range (some (jsNumber (jsStr qs.minDuration))) none) }
    else if truthy qs.maxDuration then
      { nq with duration := some (.range none (some (jsNumber (jsStr qs.maxDuration)))) }
    else nq
  let nq := if truthy qs.price then { nq with price := some (.exact (jsStr qs.price)) } else nq
  let nq :=
    if truthy qs.minPrice && truthy qs.maxPrice then
      { nq with price := some (.range (some (jsNumber (jsStr qs.minPrice))) (some (jsNumber (jsStr qs.maxPrice)))) }
    else if truthy qs.minPrice then
      { nq with price := some (.range (some (jsNumber (jsStr qs.minPrice))) none) }
    else if truthy qs.maxPrice then
      { nq with price := some (.range none (some (jsNumber (jsStr qs.maxPrice)))) }
    else nq
  nq

/-! ## Claims -/

/-- C3: in production, an incoming error named `CastError` with path `p` and
value `v` is answered with status code 400, status `"fail"` and message
`Invalid p: v.`. -/
theorem C3_cast_error_production_response (e : JsError) (p v : String)
    (hname : e.name = some "CastError") (hpath : e.path = some p) (hval : e.value = some v) :
    (globalErrorHandler e "production").2 =
      .sent { statusCode := some 400, status := some "fail",
              message := some ("Invalid " ++ p ++ ": " ++ v ++ "."),
              error := none, stack := none } := by
  simp [globalErrorHandler, normalizeErr, translateProd, hname, hpath, hval,
        handleCastErrorDB, appErrorToJs, mkAppError, sendErrorProd, jsStr,
        captureStackTrace]
  decide

/-- Witness for C3 at the spec's example: path `"id"`, value `"abc"` gives
the message `Invalid id: abc.`. -/
theorem C3_cast_error_production_response_witness :
    (globalErrorHandler
      { name := some "CastError", code := none, errmsg := none,
        path := some "id", value := some "abc", errors := [],
        message := "Cast to ObjectId failed", statusCode := none,
        status := none, isOperational := false, stack := [] } "production").2 =
      .sent { statusCode := some 400, status := some "fail",
              message := some "Invalid id: abc.", error := none, stack := none } :=
  C3_cast_error_production_response _ "id" "abc" rfl rfl rfl

/-- C4: in production, an incoming error named `ValidationError` whose
sub-errors carry messages `m1..mk` in order is answered with status code
400, status `"fail"` and message `Invalid input data. ` followed by the
sub-messages joined with `. `.  The shape `{name: "ValidationError",
errors}` carries no driver conflict code, so `code` is not 11000. -/
theorem C4_validation_error_production_response (e : JsError)
    (hname : e.name = some "ValidationError") (hcode : e.code ≠ some 11000) :
    (globalErrorHandler e "production").2 =
      .sent { statusCode := some 400, status := some "fail",
              message := some ("Invalid input data. " ++
                String.intercalate ". " (e.errors.map (fun el => el.message))),
              error := none, stack := none } := by
  simp [globalErrorHandler, normalizeErr, translateProd, hname, hcode,
        handleValidationErrorDB, appErrorToJs, mkAppError, sendErrorProd,
        captureStackTrace]
  decide

/-- Witness for C4 at the spec's example: sub-messages `Name is required`
and `Price must be positive` give
`Invalid input data. Name is required. Price must be positive`. -/
theorem C4_validation_error_production_response_witness :
    (globalErrorHandler
      { name := some "ValidationError", code := none, errmsg := none,
        path := none, value := none,
        errors := [⟨"Name is required"⟩, ⟨"Price must be positive"⟩],
        message := "Tour validation failed", statusCode := none,
        status := none, isOperational := false, stack := [] } "production").2 =
      .sent { statusCode := some 400, status := some "fail",
              message := some "Invalid input data. Name is required. Price must be positive",
              error := none, stack := none } :=
  C4_validation_error_production_response _ rfl (by decide)

/-- C5: in production, an incoming error with conflict code 11000 whose raw
message contains a quoted substring is answered with status code 400,
status `"fail"` and message `Duplicate field value: q. Please use another
value!`, `q` being the first quoted substring of the raw message, quotes
included.  The shape `{code: 11000, errmsg}` is a driver error, not a
Mongoose `CastError`, so `name` is not `"CastError"`. -/
theorem C5_duplicate_fields_production_response (e : JsError) (s q : String)
    (hcode : e.code = some 11000) (hmsg : e.errmsg = some s)
    (hq : matchQuotedStr s = some q) (hname : e.name ≠ some "CastError") :
    (globalErrorHandler e "production").2 =
      .sent { statusCode := some 400, status := some "fail",
              message := some ("Duplicate field value: " ++ q ++ ". Please use another value!"),
              error := none, stack := none } := by
  simp [globalErrorHandler, normalizeErr, translateProd, hcode, hmsg, hq, hname,
        handleDuplicateFieldsDB, appErrorToJs, mkAppError, sendErrorProd,
        captureStackTrace]
  decide

/-- Witness for C5 at the spec's example: a raw driver message quoting
`tour-1` gives `Duplicate field value: "tour-1". Please use another value!`,
quotes included. -/
theorem C5_duplicate_fields_production_response_witness :
    (globalErrorHandler
      { name := none, code := some 11000,
        errmsg := some "E11000 duplicate key error collection: natours.tours index: name_1 dup key: name: \"tour-1\" ",
        path := none, value := none, errors := [],
        message := "E11000 duplicate key error", statusCode := none,
        status := none, isOperational := false, stack := [] } "production").2 =
      .sent { statusCode := some 400, status := some "fail",
              message := some "Duplicate field value: \"tour-1\". Please use another value!",
              error := none, stack := none } :=
  C5_duplicate_fields_production_response _
    "E11000 duplicate key error collection: natours.tours index: name_1 dup key: name: \"tour-1\" "
    "\"tour-1\"" rfl rfl (by decide) (by decide)

/-- C6: constructing an `AppError` from `(message, statusCode)` always sets
`isOperational` to true, derives `status` as `"fail"` exactly when the
decimal string of the status code starts with the digit 4 and `"error"`
otherwise, and captures a trace that excludes the constructor frame: when
the caller is not the constructor itself the stored trace is exactly the
caller's stack. -/
theorem C6_appError_construction_invariants (m : String) (c : Nat) (fs : Trace)
    (hfs : "AppError" ∉ fs) :
    (mkAppError m c fs).isOperational = true ∧
    (mkAppError m c fs).message = m ∧
    (mkAppError m c fs).statusCode = c ∧
    ((mkAppError m c fs).status = "fail" ↔ jsStartsWith (toString c) "4" = true) ∧
    ((mkAppError m c fs).status = "error" ↔ ¬ jsStartsWith (toString c) "4" = true) ∧
    (mkAppError m c fs).stack = fs := by
  refine ⟨rfl, rfl, rfl, ?_, ?_, ?_⟩
  · by_cases h : jsStartsWith (toString c) "4" = true <;> simp [mkAppError, h]
  · by_cases h : jsStartsWith (toString c) "4" = true <;> simp [mkAppError, h]
  · show captureStackTrace ("AppError" :: fs) "AppError" = fs
    cases fs with
    | nil => rfl
    | cons a t =>
      have ha : a ≠ "AppError" := by
        intro h
        exact hfs (by simp [h])
      simp [captureStackTrace, List.dropWhile, ha]

/-- Witness for C6 at `("No tour found", 404)` called from a handler frame. -/
theorem C6_appError_construction_invariants_witness :
    (mkAppError "No tour found" 404 ["getTour"]).isOperational = true ∧
    (mkAppError "No tour found" 404 ["getTour"]).message = "No tour found" ∧
    (mkAppError "No tour found" 404 ["getTour"]).statusCode = 404 ∧
    ((mkAppError "No tour found" 404 ["getTour"]).status = "fail" ↔
      jsStartsWith (toString 404) "4" = true) ∧
    ((mkAppError "No tour found" 404 ["getTour"]).status = "error" ↔
      ¬ jsStartsWith (toString 404) "4" = true) ∧
    (mkAppError "No tour found" 404 ["getTour"]).stack = ["getTour"] :=
  C6_appError_construction_invariants "No tour found" 404 ["getTour"] (by decide)

/-- C2: in production, an error recognized by none of the three translators
and not flagged operational is answered with exactly the fixed generic
envelope, status code 500, status `error`, message
`Something went very wrong!`; any two such errors get identical response
bodies, so neither the original message nor the trace appears. -/
theorem C2_nonoperational_generic_envelope (e e2 : JsError)
    (h1 : e.name ≠ some "CastError") (h2 : e.code ≠ some 11000)
    (h3 : e.name ≠ some "ValidationError") (h4 : e.isOperational = false)
    (g1 : e2.name ≠ some "CastError") (g2 : e2.code ≠ some 11000)
    (g3 : e2.name ≠ some "ValidationError") (g4 : e2.isOperational = false) :
    (globalErrorHandler e "production").2 =
      .sent { statusCode := some 500, status := some "error",
              message := some "Something went very wrong!", error := none, stack := none } ∧
    (globalErrorHandler e "production").2 = (globalErrorHandler e2 "production").2 := by
  have send : ∀ x : JsError, x.name ≠ some "CastError" → x.code ≠ some 11000 →
      x.name ≠ some "ValidationError" → x.isOperational = false →
      (globalErrorHandler x "production").2 =
        .sent { statusCode := some 500, status := some "error",
                message := some "Something went very wrong!", error := none, stack := none } := by
    intro x k1 k2 k3 k4
    simp [globalErrorHandler, normalizeErr, translateProd, k1, k2, k3,
          sendErrorProd, k4]
  refine ⟨send e h1 h2 h3 h4, ?_⟩
  rw [send e h1 h2 h3 h4, send e2 g1 g2 g3 g4]

/-- Witness for C2: two unrecognized defects with different messages and
traces get the one generic envelope, and the same body. -/
theorem C2_nonoperational_generic_envelope_witness :
    (globalErrorHandler
      { name := some "TypeError", code := none, errmsg := none, path := none,
        value := none, errors := [], message := "x is not defined",
        statusCode := none, status := none, isOperational := false,
        stack := ["app"] } "production").2 =
      .sent { statusCode := some 500, status := some "error",
              message := some "Something went very wrong!", error := none, stack := none } ∧
    (globalErrorHandler
      { name := some "TypeError", code := none, errmsg := none, path := none,
        value := none, errors := [], message := "x is not defined",
        statusCode := none, status := none, isOperational := false,
        stack := ["app"] } "production").2 =
    (globalErrorHandler
      { name := some "RangeError", code := some 7, errmsg := none, path := none,
        value := none, errors := [], message := "secret detail",
        statusCode := some 418, status := some "weird", isOperational := false,
        stack := ["deep", "stack"] } "production").2 :=
  C2_nonoperational_generic_envelope
    { name := some "TypeError", code := none, errmsg := none, path := none,
      value := none, errors := [], message := "x is not defined",
      statusCode := none, status := none, isOperational := false,
      stack := ["app"] }
    { name := some "RangeError", code := some 7, errmsg := none, path := none,
      value := none, errors := [], message := "secret detail",
      statusCode := some 418, status := some "weird", isOperational := false,
      stack := ["deep", "stack"] }
    (by decide) (by decide) (by decide) (by decide)
    (by decide) (by decide) (by decide) (by decide)

/-- C10: when the environment selector is neither `development` nor
`production`, the responder sends no response at all, although the incoming
error's status code and status have already been normalized to their
defaults by the in-place mutations. -/
theorem C10_unknown_env_sends_no_response (e : JsError) (env : String)
    (h1 : env ≠ "development") (h2 : env ≠ "production") :
    (globalErrorHandler e env).2 = .noResponse ∧
    (globalErrorHandler e env).1.statusCode = some (jsOrNat e.statusCode 500) ∧
    (globalErrorHandler e env).1.status = some (jsOrStr e.status "error") := by
  simp [globalErrorHandler, normalizeErr, h1, h2]

/-- Witness for C10 in an unset/test environment: no response, and the
mutated error has been normalized to 500/`error`. -/
theorem C10_unknown_env_sends_no_response_witness :
    (globalErrorHandler
      { name := none, code := none, errmsg := none, path := none, value := none,
        errors := [], message := "m", statusCode := none, status := none,
        isOperational := false, stack := [] } "test").2 = .noResponse ∧
    (globalErrorHandler
      { name := none, code := none, errmsg := none, path := none, value := none,
        errors := [], message := "m", statusCode := none, status := none,
        isOperational := false, stack := [] } "test").1.statusCode = some (jsOrNat none 500) ∧
    (globalErrorHandler
      { name := none, code := none, errmsg := none, path := none, value := none,
        errors := [], message := "m", statusCode := none, status := none,
        isOperational := false, stack := [] } "test").1.status = some (jsOrStr none "error") :=
  C10_unknown_env_sends_no_response _ "test" (by decide) (by decide)

/-- C7: the wrapped handler has the same signature as the inner one; on
success it behaves identically (same effects, same value, nothing forwarded
to the error chain); on failure it forwards the failure to `next` exactly
once; its effect trace is exactly the trace of the single call to the inner
handler, so the handler is never re-invoked or retried; and it is a pure
composition whose behaviour at a request depends only on the inner
handler's behaviour there, so no state is held across invocations and no
rejection escapes the wrapper. -/
theorem C7_catchAsync_forwards_failure_once (ρ ε α : Type)
    (fn fn2 : ρ → List String × Outcome ε α) (req : ρ) (effs : List String) :
    (∀ a, fn req = (effs, .fulfilled a) →
      catchAsync fn req = { effects := effs, nextCalls := [], value := some a }) ∧
    (∀ e, fn req = (effs, .rejected e) →
      catchAsync fn req = { effects := effs, nextCalls := [e], value := none }) ∧
    (catchAsync fn req).effects = (fn req).1 ∧
    (fn req = fn2 req → catchAsync fn req = catchAsync fn2 req) := by
  refine ⟨?_, ?_, ?_, ?_⟩
  · intro a h
    simp [catchAsync, h]
  · intro e h
    simp [catchAsync, h]
  · rcases h : fn req with ⟨effs', out⟩
    cases out <;> simp [catchAsync, h]
  · intro h
    simp [catchAsync, h]

/-- Witness for C7: a handler that rejects with error 42 after one database
effect has that failure forwarded to `next` exactly once, with the single
effect trace preserved. -/
theorem C7_catchAsync_forwards_failure_once_witness :
    catchAsync (fun _ : Nat => (["query db"], Outcome.rejected 42)) 0 =
      { effects := ["query db"], nextCalls := [42],
        value := (none : Option String) } :=
  (C7_catchAsync_forwards_failure_once Nat Nat String
      (fun _ => (["query db"], Outcome.rejected 42))
      (fun _ => (["query db"], Outcome.rejected 42)) 0 ["query db"]).2.1 42 rfl

/-- C8: whenever an exact-match value and at least one range bound for the
same field (price or duration) are both present — each field on its own,
with no assumption on the other field — the filter emits the range for that
field, closed when both bounds are present and one-sided otherwise, and the
exact-match value does not appear; in particular
`price=50&minPrice=10&maxPrice=100` yields `price = range (gte 10) (lte 100)`. -/
theorem C8_range_overwrites_exact_match (qs : QueryString) :
    (truthy qs.price = true → truthy qs.minPrice = true → truthy qs.maxPrice = true →
      (filterStage qs).price =
        some (.range (some (jsNumber (jsStr qs.minPrice))) (some (jsNumber (jsStr qs.maxPrice))))) ∧
    (truthy qs.price = true → truthy qs.minPrice = true → truthy qs.maxPrice = false →
      (filterStage qs).price = some (.range (some (jsNumber (jsStr qs.minPrice))) none)) ∧
    (truthy qs.price = true → truthy qs.minPrice = false → truthy qs.maxPrice = true →
      (filterStage qs).price = some (.range none (some (jsNumber (jsStr qs.maxPrice))))) ∧
    (truthy qs.duration = true → truthy qs.minDuration = true → truthy qs.maxDuration = true →
      (filterStage qs).duration =
        some (.range (some (jsNumber (jsStr qs.minDuration))) (some (jsNumber (jsStr qs.maxDuration))))) ∧
    (truthy qs.duration = true → truthy qs.minDuration = true → truthy qs.maxDuration = false →
      (filterStage qs).duration = some (.range (some (jsNumber (jsStr qs.minDuration))) none)) ∧
    (truthy qs.duration = true → truthy qs.minDuration = false → truthy qs.maxDuration = true →
      (filterStage qs).duration = some (.range none (some (jsNumber (jsStr qs.maxDuration))))) ∧
    (filterStage { price := some "50", minPrice := some "10", maxPrice := some "100" }).price =
      some (.range (some (.num 10)) (some (.num 100))) := by
  refine ⟨?_, ?_, ?_, ?_, ?_, ?_, by decide⟩ <;>
    intro hx hmin hmax <;>
    by_cases h1 : truthy qs.minPrice = true <;>
    by_cases h2 : truthy qs.maxPrice = true <;>
    by_cases h3 : truthy qs.minDuration = true <;>
    by_cases h4 : truthy qs.maxDuration = true <;>
    by_cases h5 : truthy qs.price = true <;>
    by_cases h6 : truthy qs.duration = true <;>
    simp_all [filterStage]

/-- Witness for C8 at the spec's example query
`price=50&minPrice=10&maxPrice=100` (no duration parameter at all), and at
a second query carrying only an exact duration with a one-sided duration
bound (no price parameter at all). -/
theorem C8_range_overwrites_exact_match_witness :
    (filterStage { price := some "50", minPrice := some "10", maxPrice := some "100" }).price =
      some (.range (some (jsNumber (jsStr (some "10")))) (some (jsNumber (jsStr (some "100"))))) ∧
    (filterStage { duration := some "7", minDuration := some "3" }).duration =
      some (.range (some (jsNumber (jsStr (some "3")))) none) :=
  ⟨(C8_range_overwrites_exact_match
      { price := some "50", minPrice := some "10", maxPrice := some "100" }).1 rfl rfl rfl,
   (C8_range_overwrites_exact_match
      { duration := some "7", minDuration := some "3" }).2.2.2.2.1 rfl rfl rfl⟩

/-- C9: for every error, the `uncaughtException` listener logs the shutdown
banner and the failure's name and message, then terminates the process with
the non-zero exit code 1, unconditionally: its actions are identical
whether or not a server handle exists, it performs no server drain, and it
performs no action after the exit. -/
theorem C9_uncaughtException_exits_unconditionally (n m : String) (server server2 : Option Unit) :
    uncaughtExceptionListener n m server =
      [ SupAction.log "UNCAUGHT EXCEPTION! 💥 Shutting down..."
      , SupAction.log (n ++ " " ++ m)
      , SupAction.exitProcess 1 ] ∧
    uncaughtExceptionListener n m server = uncaughtExceptionListener n m server2 ∧
    SupAction.serverClose ∉ uncaughtExceptionListener n m server ∧
    (uncaughtExceptionListener n m server).getLast? = some (SupAction.exitProcess 1) ∧
    (1 : Nat) ≠ 0 := by
  refine ⟨rfl, rfl, ?_, rfl, by decide⟩
  simp [uncaughtExceptionListener]

end TourProject
